import Mathlib

/-!
Shallow embedding of `src/game.js` (Gravity Runner).

All JavaScript numbers appearing in the simulation are exact dyadic
rationals (0.5, 0.0005, integer pixel coordinates, ...), and every
arithmetic operation the embedded code performs on them is exact in
IEEE double precision at the magnitudes reached here, so we model
numbers by `ℚ`.  Calls to `Math.random()` are modelled by explicit
rational parameters, each constrained to `[0, 1)` where a claim needs
it.  DOM / canvas side effects are pure rendering and are dropped;
`localStorage.setItem` is modelled as an explicit write event
(`Option ℤ`) returned by `gameOver`.
-/

namespace GravityRunner

/-! ## CONFIG (src/game.js lines 4-31) -/

def canvasWidth : ℚ := 800
def canvasHeight : ℚ := 400
def playerSize : ℚ := 30
def playerStartX : ℚ := 150
def maxSpeed : ℚ := 8
def gravityConst : ℚ := 1/2
def obstacleWidth : ℚ := 40
def minGap : ℚ := 200
def maxGap : ℚ := 350
def obstacleSpeed : ℚ := 5
def speedIncrease : ℚ := 1/2000
def groundHeight : ℚ := 50
def scoreMultiplier : ℚ := 1

/-! ## Player (src/game.js lines 95-182)

`rotationFlipped` models `this.rotation` (`false` for `0`, `true` for
`Math.PI`); the draw-only fields (colors) are dropped. -/

structure Player where
  width : ℚ
  height : ℚ
  x : ℚ
  y : ℚ
  velocityY : ℚ
  gravity : ℚ
  isOnGround : Bool
  rotationFlipped : Bool
  deriving Repr, DecidableEq

/-- The `Player` constructor (lines 96-105). -/
def Player.init : Player :=
  { width := playerSize, height := playerSize, x := playerStartX,
    y := groundHeight, velocityY := 0, gravity := gravityConst,
    isOnGround := true, rotationFlipped := false }

/-- `flipGravity()` (lines 107-118); the particle burst and DOM hint are
side effects outside the player state. -/
def Player.flipGravity (p : Player) : Player :=
  { p with gravity := p.gravity * (-1), velocityY := 0 }

/-- `Math.sign` as JavaScript defines it. -/
def jsSign (v : ℚ) : ℚ := if v > 0 then 1 else if v < 0 then -1 else 0

/-- `Player.update()` (lines 120-147), translated statement by statement. -/
def Player.update (p : Player) : Player :=
  -- this.velocityY += this.gravity
  let v1 := p.velocityY + p.gravity
  -- limit fall speed
  let v2 := if |v1| > maxSpeed then jsSign v1 * maxSpeed else v1
  -- this.y += this.velocityY
  let y1 := p.y + v2
  -- ground collision (bottom)
  let hitFloor := p.gravity > 0 ∧ y1 ≥ canvasHeight - groundHeight - p.height
  let y2 := if hitFloor then canvasHeight - groundHeight - p.height else y1
  let v3 := if hitFloor then 0 else v2
  let og1 := if hitFloor then true else p.isOnGround
  -- ceiling collision (top)
  let hitCeil := p.gravity < 0 ∧ y2 ≤ groundHeight
  let y3 := if hitCeil then groundHeight else y2
  let v4 := if hitCeil then 0 else v3
  let og2 := if hitCeil then true else og1
  -- this.rotation = this.gravity > 0 ? 0 : Math.PI
  { p with velocityY := v4, y := y3, isOnGround := og2,
           rotationFlipped := !decide (p.gravity > 0) }

/-- `Player.reset()` (lines 176-181); note it does not touch `isOnGround`. -/
def Player.reset (p : Player) : Player :=
  { p with y := groundHeight, velocityY := 0, gravity := gravityConst,
           rotationFlipped := false }

/-- The two player-state mutations reachable while running: an input
gravity flip, or the per-tick physics update. -/
inductive PAction where
  | flip
  | update
  deriving Repr, DecidableEq

def applyPAction (p : Player) : PAction → Player
  | PAction.flip => p.flipGravity
  | PAction.update => p.update

/-- Run any interleaving of flips and physics ticks. -/
def runPActions (p : Player) (as : List PAction) : Player :=
  as.foldl applyPAction p

/-! ## Obstacle (src/game.js lines 187-234) -/

structure Obstacle where
  width : ℚ
  height : ℚ
  x : ℚ
  isTop : Bool
  y : ℚ
  speed : ℚ
  deriving Repr, DecidableEq

/-- The `Obstacle` constructor (lines 188-195); `heightR` models the
`Math.random()` draw for the height. -/
def Obstacle.init (heightR : ℚ) (x : ℚ) (isTop : Bool) : Obstacle :=
  let h := heightR * 100 + 100
  { width := obstacleWidth, height := h, x := x, isTop := isTop,
    y := if isTop then groundHeight else canvasHeight - groundHeight - h,
    speed := obstacleSpeed }

/-- `Obstacle.update()` (lines 197-201). -/
def Obstacle.update (o : Obstacle) : Obstacle :=
  { o with x := o.x - o.speed, speed := o.speed + speedIncrease }

/-- `Obstacle.isOffScreen()` (lines 222-224). -/
def Obstacle.isOffScreen (o : Obstacle) : Bool :=
  decide (o.x + o.width < 0)

/-- `Obstacle.collidesWith(player)` (lines 226-233). -/
def Obstacle.collidesWith (o : Obstacle) (p : Player) : Bool :=
  decide (p.x < o.x + o.width) && decide (p.x + p.width > o.x) &&
  decide (p.y < o.y + o.height) && decide (p.y + p.height > o.y)

/-! ## Particle (src/game.js lines 239-268); the two velocity components
and the size come from `Math.random()` draws at construction. -/

structure Particle where
  x : ℚ
  y : ℚ
  vx : ℚ
  vy : ℚ
  life : ℚ
  decay : ℚ
  size : ℚ
  deriving Repr, DecidableEq

/-- The `Particle` constructor (lines 240-248). -/
def Particle.init (x y vxR vyR sizeR : ℚ) : Particle :=
  { x := x, y := y, vx := (vxR - 1/2) * 6, vy := (vyR - 1/2) * 6,
    life := 1, decay := 1/50, size := sizeR * 4 + 2 }

/-- `Particle.update()` (lines 250-254). -/
def Particle.update (pt : Particle) : Particle :=
  { pt with x := pt.x + pt.vx, y := pt.y + pt.vy, life := pt.life - pt.decay }

/-- `Particle.isDead()` (lines 266-268). -/
def Particle.isDead (pt : Particle) : Bool :=
  decide (pt.life ≤ 0)

/-! ## Per-tick collection updates (src/game.js lines 370-393)

Both loops walk the array backwards, update each element in place and
`splice` it out when its removal test fires, which is exactly a map
followed by a filter that keeps the survivors in order. -/

/-- `updateObstacles()` (lines 375-383). -/
def updateObstacles (l : List Obstacle) : List Obstacle :=
  (l.map Obstacle.update).filter (fun o => !o.isOffScreen)

/-- `updateParticles()` (lines 385-393). -/
def updateParticles (l : List Particle) : List Particle :=
  (l.map Particle.update).filter (fun pt => !pt.isDead)

/-! ## Game state and tick (src/game.js lines 36-42, 291-311, 370-373,
398-463) -/

structure GameState where
  isRunning : Bool
  score : ℚ
  highScore : ℤ
  frame : ℕ
  lastObstacleFrame : ℕ
  player : Player
  obstacles : List Obstacle
  particles : List Particle
  deriving Repr, DecidableEq

/-- The `Math.random()` draws one tick can consume, as explicit inputs:
`gapR` for the spawn-throttle gap, `topR` for the floor/ceiling coin
flip, `heightR` for the new obstacle's height. -/
structure Rand where
  gapR : ℚ
  topR : ℚ
  heightR : ℚ
  deriving Repr, DecidableEq

/-- `generateObstacle()` (lines 291-299), acting on the obstacle list and
`lastObstacleFrame`; `canvas.width` is `CONFIG.canvas.width = 800`
(set by `resizeCanvas`, line 77). -/
def generateObstacle (rnd : Rand) (frame lastF : ℕ) (obs : List Obstacle) :
    List Obstacle × ℕ :=
  let gap := rnd.gapR * (maxGap - minGap) + minGap
  if (frame : ℚ) - (lastF : ℚ) > gap / obstacleSpeed then
    (obs ++ [Obstacle.init rnd.heightR canvasWidth (decide (rnd.topR > 1/2))],
     frame)
  else
    (obs, lastF)

/-- `updateScore()` (lines 370-373); the DOM shows `Math.floor(score)`. -/
def updateScore (s : GameState) : GameState :=
  { s with score := s.score + scoreMultiplier }

/-- `gameOver()` (lines 445-463).  Returns the new state together with
the value written to `localStorage` under the fixed key
`gravityRunnerHighScore`, if any. -/
def gameOver (s : GameState) : GameState × Option ℤ :=
  let finalScore := ⌊s.score⌋
  if finalScore > s.highScore then
    ({ s with isRunning := false, highScore := finalScore }, some finalScore)
  else
    ({ s with isRunning := false }, none)

/-- `checkCollisions()` (lines 304-311): the first colliding obstacle
ends the run. -/
def checkCollisions (s : GameState) : GameState × Option ℤ :=
  if s.obstacles.any (fun o => o.collidesWith s.player) then gameOver s
  else (s, none)

/-- One `gameLoop()` invocation (lines 398-420).  Output: the state after
the tick, whether `requestAnimationFrame` was called to schedule the
next tick, and the `localStorage` write the tick performed, if any.
Drawing is pure rendering and is dropped. -/
def tick (rnd : Rand) (s : GameState) : GameState × Bool × Option ℤ :=
  if s.isRunning then
    let s1 := { s with player := s.player.update }
    let s2 := { s1 with obstacles := updateObstacles s1.obstacles }
    let s3 := { s2 with particles := updateParticles s2.particles }
    let gen := generateObstacle rnd s3.frame s3.lastObstacleFrame s3.obstacles
    let s4 := { s3 with obstacles := gen.1, lastObstacleFrame := gen.2 }
    let s5 := updateScore s4
    let chk := checkCollisions s5
    ({ chk.1 with frame := chk.1.frame + 1 }, true, chk.2)
  else
    (s, false, none)

/-- `startGame()` (lines 425-443), state portion: reset everything, then
the loop starts ticking. -/
def startGame (s : GameState) : GameState :=
  { s with isRunning := true, score := 0, frame := 0,
           lastObstacleFrame := 0, obstacles := [], particles := [],
           player := s.player.reset }

/-! ## Helper lemmas -/

/-- Two non-degenerate open intervals overlap exactly when each one's
left end lies to the left of the other's right end. -/
theorem open_intervals_overlap {a b c d : ℚ} (hab : a < b) (hcd : c < d) :
    (∃ t : ℚ, a < t ∧ t < b ∧ c < t ∧ t < d) ↔ a < d ∧ c < b := by
  constructor
  · rintro ⟨t, h1, h2, h3, h4⟩
    exact ⟨by linarith, by linarith⟩
  · rintro ⟨h1, h2⟩
    have hmax : max a c < min b d := by
      rcases max_cases a c with ⟨he, _⟩ | ⟨he, _⟩ <;>
        rcases min_cases b d with ⟨hf, _⟩ | ⟨hf, _⟩ <;>
          rw [he, hf] <;> linarith
    have hal : a ≤ max a c := le_max_left a c
    have hcl : c ≤ max a c := le_max_right a c
    have hbl : min b d ≤ b := min_le_left b d
    have hdl : min b d ≤ d := min_le_right b d
    exact ⟨(max a c + min b d) / 2, by linarith, by linarith, by linarith,
      by linarith⟩

/-- State invariant maintained by the player physics: the body sits
between the two planes, its gravity is one of the two signed constants,
and its velocity never points against the current gravity (every flip
zeroes the velocity, so the body only ever moves toward the plane the
clamp in `update` guards). -/
def PInv (p : Player) : Prop :=
  p.height = playerSize ∧
  (p.gravity = gravityConst ∨ p.gravity = -gravityConst) ∧
  groundHeight ≤ p.y ∧
  p.y ≤ canvasHeight - groundHeight - p.height ∧
  (0 < p.gravity → 0 ≤ p.velocityY) ∧
  (p.gravity < 0 → p.velocityY ≤ 0)

theorem PInv_init_reset : PInv Player.init.reset := by
  unfold PInv Player.init Player.reset
  norm_num [playerSize, gravityConst, groundHeight, canvasHeight]

theorem PInv_flipGravity {p : Player} (h : PInv p) : PInv p.flipGravity := by
  obtain ⟨hh, hg, hylo, hyhi, -, -⟩ := h
  unfold PInv Player.flipGravity
  refine ⟨hh, ?_, hylo, hyhi, fun _ => le_refl 0, fun _ => le_refl 0⟩
  rcases hg with hg | hg
  · right; rw [hg]; ring
  · left; rw [hg]; ring

theorem PInv_update {p : Player} (h : PInv p) : PInv p.update := by
  obtain ⟨hh, hg, hylo, hyhi, hvpos, hvneg⟩ := h
  have hfloor : canvasHeight - groundHeight - p.height = 320 := by
    rw [hh]; norm_num [canvasHeight, groundHeight, playerSize]
  have hgh : groundHeight = 50 := by norm_num [groundHeight]
  have hms : maxSpeed = 8 := by norm_num [maxSpeed]
  rcases hg with hg | hg
  · -- gravity = 1/2, pulling toward the floor plane
    have hgval : p.gravity = 1/2 := by rw [hg]; norm_num [gravityConst]
    have hgpos : (0:ℚ) < p.gravity := by rw [hgval]; norm_num
    have hv : 0 ≤ p.velocityY := hvpos hgpos
    have hv1pos : (0:ℚ) < p.velocityY + p.gravity := by linarith
    have habs : |p.velocityY + p.gravity| = p.velocityY + p.gravity :=
      abs_of_pos hv1pos
    have hsign : jsSign (p.velocityY + p.gravity) = 1 := by
      unfold jsSign; rw [if_pos hv1pos]
    unfold PInv Player.update
    simp only [habs, hsign, one_mul]
    split_ifs with hclamp hfl hce hce hfl hce hce
    all_goals try exact absurd hce.1 (not_lt.mpr hgpos.le)
    · -- velocity clamped to max speed, floor plane reached
      exact ⟨hh, Or.inl hg, by linarith, by linarith, fun _ => by linarith,
        fun hneg => by linarith⟩
    · -- velocity clamped to max speed, floor plane not reached
      rcases not_and_or.mp hfl with hbad | hlt
      · exact absurd hgpos hbad
      · have h2 := not_le.mp hlt
        exact ⟨hh, Or.inl hg, by linarith, by linarith, fun _ => by linarith,
          fun hneg => by linarith⟩
    · -- velocity below max speed, floor plane reached
      exact ⟨hh, Or.inl hg, by linarith, by linarith, fun _ => by linarith,
        fun hneg => by linarith⟩
    · -- velocity below max speed, floor plane not reached
      rcases not_and_or.mp hfl with hbad | hlt
      · exact absurd hgpos hbad
      · have h2 := not_le.mp hlt
        exact ⟨hh, Or.inl hg, by linarith, by linarith, fun _ => by linarith,
          fun hneg => by linarith⟩
  · -- gravity = -1/2, pulling toward the ceiling plane
    have hgval : p.gravity = -(1/2) := by rw [hg]; norm_num [gravityConst]
    have hgneg : p.gravity < 0 := by rw [hgval]; norm_num
    have hv : p.velocityY ≤ 0 := hvneg hgneg
    have hv1neg : p.velocityY + p.gravity < 0 := by linarith
    have habs : |p.velocityY + p.gravity| = -(p.velocityY + p.gravity) :=
      abs_of_neg hv1neg
    have hsign : jsSign (p.velocityY + p.gravity) = -1 := by
      unfold jsSign
      rw [if_neg (by linarith), if_pos hv1neg]
    unfold PInv Player.update
    simp only [habs, hsign, neg_mul, one_mul]
    split_ifs with hclamp hfl hce hce hfl hce hce
    all_goals try exact absurd hfl.1 (not_lt.mpr hgneg.le)
    · -- velocity clamped to max speed, ceiling plane reached
      exact ⟨hh, Or.inr hg, by linarith, by linarith, fun hpos => by linarith,
        fun _ => by linarith⟩
    · -- velocity clamped to max speed, ceiling plane not reached
      rcases not_and_or.mp hce with hbad | hlt
      · exact absurd hgneg hbad
      · have h2 := not_le.mp hlt
        exact ⟨hh, Or.inr hg, by linarith, by linarith, fun hpos => by linarith,
          fun _ => by linarith⟩
    · -- velocity below max speed, ceiling plane reached
      exact ⟨hh, Or.inr hg, by linarith, by linarith, fun hpos => by linarith,
        fun _ => by linarith⟩
    · -- velocity below max speed, ceiling plane not reached
      rcases not_and_or.mp hce with hbad | hlt
      · exact absurd hgneg hbad
      · have h2 := not_le.mp hlt
        exact ⟨hh, Or.inr hg, by linarith, by linarith, fun hpos => by linarith,
          fun _ => by linarith⟩

theorem PInv_runPActions {p : Player} (h : PInv p) (as : List PAction) :
    PInv (runPActions p as) := by
  induction as generalizing p with
  | nil => exact h
  | cons a as ih =>
    cases a with
    | flip => exact ih (PInv_flipGravity h)
    | update => exact ih (PInv_update h)

/-! ## Claim theorems -/

/-- C2: for every player state, flipping gravity twice restores the
gravity constant to its original signed value, and each individual flip
sets the vertical velocity to exactly 0. -/
theorem flip_twice_restores_gravity (p : Player) :
    p.flipGravity.flipGravity.gravity = p.gravity ∧
    p.flipGravity.velocityY = 0 ∧
    p.flipGravity.flipGravity.velocityY = 0 := by
  refine ⟨?_, rfl, rfl⟩
  show p.gravity * (-1) * (-1) = p.gravity
  ring

/-- C3: for rectangles with positive extents, `collidesWith` is true
exactly when the open x-intervals and the open y-intervals both overlap;
hence rectangles that merely touch on an edge never collide and
identical rectangles always collide. -/
theorem collidesWith_iff_strict_overlap (o : Obstacle) (p : Player)
    (hpw : 0 < p.width) (hph : 0 < p.height)
    (how : 0 < o.width) (hoh : 0 < o.height) :
    (o.collidesWith p = true ↔
      ((∃ t : ℚ, p.x < t ∧ t < p.x + p.width ∧ o.x < t ∧ t < o.x + o.width) ∧
       (∃ t : ℚ, p.y < t ∧ t < p.y + p.height ∧ o.y < t ∧ t < o.y + o.height))) ∧
    ((p.x + p.width = o.x ∨ o.x + o.width = p.x ∨
      p.y + p.height = o.y ∨ o.y + o.height = p.y) →
      o.collidesWith p = false) ∧
    ((p.x = o.x ∧ p.width = o.width ∧ p.y = o.y ∧ p.height = o.height) →
      o.collidesWith p = true) := by
  have hx : p.x < p.x + p.width := by linarith
  have hox : o.x < o.x + o.width := by linarith
  have hy : p.y < p.y + p.height := by linarith
  have hoy : o.y < o.y + o.height := by linarith
  refine ⟨?_, ?_, ?_⟩
  · rw [open_intervals_overlap hx hox, open_intervals_overlap hy hoy]
    simp only [Obstacle.collidesWith, Bool.and_eq_true, decide_eq_true_eq]
    constructor
    · rintro ⟨⟨⟨h1, h2⟩, h3⟩, h4⟩
      exact ⟨⟨h1, h2⟩, ⟨h3, h4⟩⟩
    · rintro ⟨⟨h1, h2⟩, h3, h4⟩
      exact ⟨⟨⟨h1, h2⟩, h3⟩, h4⟩
  · intro h
    rw [Bool.eq_false_iff]
    intro hc
    simp only [Obstacle.collidesWith, Bool.and_eq_true, decide_eq_true_eq] at hc
    obtain ⟨⟨⟨h1, h2⟩, h3⟩, h4⟩ := hc
    rcases h with h | h | h | h <;> linarith
  · rintro ⟨h1, h2, h3, h4⟩
    simp only [Obstacle.collidesWith, Bool.and_eq_true, decide_eq_true_eq]
    refine ⟨⟨⟨?_, ?_⟩, ?_⟩, ?_⟩ <;> linarith

/-- Witness for C3 at the initial player and a concrete obstacle. -/
theorem collidesWith_iff_strict_overlap_witness :
    0 < Player.init.width ∧ 0 < Player.init.height ∧
    0 < (Obstacle.init (1/2) 100 true).width ∧
    0 < (Obstacle.init (1/2) 100 true).height ∧
    (((Obstacle.init (1/2) 100 true).collidesWith Player.init = true ↔
      ((∃ t : ℚ, Player.init.x < t ∧ t < Player.init.x + Player.init.width ∧
        (Obstacle.init (1/2) 100 true).x < t ∧
        t < (Obstacle.init (1/2) 100 true).x + (Obstacle.init (1/2) 100 true).width) ∧
       (∃ t : ℚ, Player.init.y < t ∧ t < Player.init.y + Player.init.height ∧
        (Obstacle.init (1/2) 100 true).y < t ∧
        t < (Obstacle.init (1/2) 100 true).y + (Obstacle.init (1/2) 100 true).height))) ∧
    ((Player.init.x + Player.init.width = (Obstacle.init (1/2) 100 true).x ∨
      (Obstacle.init (1/2) 100 true).x + (Obstacle.init (1/2) 100 true).width = Player.init.x ∨
      Player.init.y + Player.init.height = (Obstacle.init (1/2) 100 true).y ∨
      (Obstacle.init (1/2) 100 true).y + (Obstacle.init (1/2) 100 true).height = Player.init.y) →
      (Obstacle.init (1/2) 100 true).collidesWith Player.init = false) ∧
    ((Player.init.x = (Obstacle.init (1/2) 100 true).x ∧
      Player.init.width = (Obstacle.init (1/2) 100 true).width ∧
      Player.init.y = (Obstacle.init (1/2) 100 true).y ∧
      Player.init.height = (Obstacle.init (1/2) 100 true).height) →
      (Obstacle.init (1/2) 100 true).collidesWith Player.init = true)) :=
  ⟨by norm_num [Player.init, playerSize], by norm_num [Player.init, playerSize],
   by norm_num [Obstacle.init, obstacleWidth], by norm_num [Obstacle.init],
   collidesWith_iff_strict_overlap (Obstacle.init (1/2) 100 true) Player.init
     (by norm_num [Player.init, playerSize]) (by norm_num [Player.init, playerSize])
     (by norm_num [Obstacle.init, obstacleWidth]) (by norm_num [Obstacle.init])⟩

/-- C4: after the per-tick obstacle update, an updated obstacle stays in
the live collection exactly when its right edge `x + width` has not
scrolled strictly past `x = 0`. -/
theorem obstacle_removed_iff_off_left (l : List Obstacle) (o : Obstacle)
    (h : o ∈ l) :
    o.update ∈ updateObstacles l ↔ ¬ (o.update.x + o.update.width < 0) := by
  have hm : o.update ∈ l.map Obstacle.update := List.mem_map_of_mem _ h
  unfold updateObstacles
  rw [List.mem_filter]
  simp only [Obstacle.isOffScreen, Bool.not_eq_eq_eq_not, Bool.not_true,
    decide_eq_false_iff_not, Bool.not_eq_true', decide_eq_false_iff_not]
  constructor
  · rintro ⟨_, hoff⟩
    exact hoff
  · intro hoff
    exact ⟨hm, hoff⟩

/-- C1: starting from the reset player state, after every interleaving of
gravity flips and physics updates (so in particular after every
`Player.update()` of a running tick), the vertical position lies within
`[ceilingPlane, floorPlane - playerHeight] = [50, 320]`. -/
theorem player_y_within_planes (as : List PAction) :
    groundHeight ≤ (runPActions Player.init.reset as).y ∧
    (runPActions Player.init.reset as).y ≤
      canvasHeight - groundHeight - (runPActions Player.init.reset as).height ∧
    (50 : ℚ) ≤ (runPActions Player.init.reset as).y ∧
    (runPActions Player.init.reset as).y ≤ 320 := by
  obtain ⟨hh, -, hylo, hyhi, -, -⟩ := PInv_runPActions PInv_init_reset as
  have h1 : canvasHeight - groundHeight - (runPActions Player.init.reset as).height
      = 320 := by
    rw [hh]; norm_num [canvasHeight, groundHeight, playerSize]
  have h2 : groundHeight = (50 : ℚ) := by norm_num [groundHeight]
  exact ⟨hylo, hyhi, by linarith, by linarith⟩

set_option maxHeartbeats 2000000 in
/-- C7: from the reset player state, 100 physics updates with no gravity
flips leave the player exactly on the floor plane,
`y = floorPlane - playerHeight = 320`, with zero velocity and the
on-ground flag set. -/
theorem hundred_ticks_rest_on_floor :
    (runPActions Player.init.reset (List.replicate 100 PAction.update)).y
        = canvasHeight - groundHeight - playerSize ∧
    (runPActions Player.init.reset (List.replicate 100 PAction.update)).y = 320 ∧
    (runPActions Player.init.reset (List.replicate 100 PAction.update)).velocityY
        = 0 ∧
    (runPActions Player.init.reset (List.replicate 100 PAction.update)).isOnGround
        = true := by
  norm_num [runPActions, List.replicate, applyPAction, Player.update, Player.reset,
    Player.init, jsSign, abs, maxSpeed, gravityConst, canvasHeight, groundHeight,
    playerSize]

/-- Witness for C4: a concrete on-screen obstacle survives the update. -/
theorem obstacle_removed_iff_off_left_witness :
    Obstacle.init (1/2) 100 true ∈ [Obstacle.init (1/2) 100 true] ∧
    ((Obstacle.init (1/2) 100 true).update ∈
        updateObstacles [Obstacle.init (1/2) 100 true] ↔
      ¬ ((Obstacle.init (1/2) 100 true).update.x +
          (Obstacle.init (1/2) 100 true).update.width < 0)) :=
  ⟨List.mem_singleton_self _,
   obstacle_removed_iff_off_left [Obstacle.init (1/2) 100 true]
     (Obstacle.init (1/2) 100 true) (List.mem_singleton_self _)⟩

/-- The collision check never touches the score. -/
theorem checkCollisions_score (s : GameState) :
    (checkCollisions s).1.score = s.score := by
  simp only [checkCollisions, gameOver]
  split_ifs <;> rfl

/-- C5: a tick taken while running adds exactly the configured score
multiplier to the score; a tick taken while idle or over leaves the
whole state (in particular the score) unchanged. -/
theorem score_increment_per_tick (rnd : Rand) (s : GameState) :
    (s.isRunning = true →
      (tick rnd s).1.score = s.score + scoreMultiplier) ∧
    (s.isRunning = false → (tick rnd s).1 = s) := by
  constructor
  · intro h
    simp only [tick, h, if_true]
    rw [checkCollisions_score]
    rfl
  · intro h
    simp [tick, h]

/-- Witness for C5 at a concrete running state and a concrete idle state. -/
theorem score_increment_per_tick_witness :
    (({ isRunning := true, score := 7, highScore := 0, frame := 0,
        lastObstacleFrame := 0, player := Player.init, obstacles := [],
        particles := [] } : GameState).isRunning = true ∧
     (tick ⟨0, 0, 0⟩
        { isRunning := true, score := 7, highScore := 0, frame := 0,
          lastObstacleFrame := 0, player := Player.init, obstacles := [],
          particles := [] }).1.score = 7 + scoreMultiplier) ∧
    (({ isRunning := false, score := 7, highScore := 0, frame := 0,
        lastObstacleFrame := 0, player := Player.init, obstacles := [],
        particles := [] } : GameState).isRunning = false ∧
     (tick ⟨0, 0, 0⟩
        { isRunning := false, score := 7, highScore := 0, frame := 0,
          lastObstacleFrame := 0, player := Player.init, obstacles := [],
          particles := [] }).1 =
       { isRunning := false, score := 7, highScore := 0, frame := 0,
         lastObstacleFrame := 0, player := Player.init, obstacles := [],
         particles := [] }) :=
  ⟨⟨rfl, (score_increment_per_tick ⟨0, 0, 0⟩ _).1 rfl⟩,
   ⟨rfl, (score_increment_per_tick ⟨0, 0, 0⟩ _).2 rfl⟩⟩

/-- C6: at game-over, with `finalScore = ⌊score⌋`: if the final score
strictly exceeds the stored best it becomes the new best and is
persisted under the fixed storage key, otherwise the best is unchanged
and nothing is persisted. -/
theorem gameOver_highscore_update (s : GameState) :
    (⌊s.score⌋ > s.highScore →
      (gameOver s).1.highScore = ⌊s.score⌋ ∧
      (gameOver s).2 = some ⌊s.score⌋) ∧
    (¬ ⌊s.score⌋ > s.highScore →
      (gameOver s).1.highScore = s.highScore ∧ (gameOver s).2 = none) := by
  simp only [gameOver]
  constructor
  · intro h
    rw [if_pos h]
    exact ⟨rfl, rfl⟩
  · intro h
    rw [if_neg h]
    exact ⟨rfl, rfl⟩

/-- Witness for C6: a run scoring 50 against stored best 30 persists 50;
a run scoring 10 against stored best 30 persists nothing. -/
theorem gameOver_highscore_update_witness :
    (⌊(50 : ℚ)⌋ > (30 : ℤ) ∧
     (gameOver ⟨true, 50, 30, 0, 0, Player.init, [], []⟩).1.highScore
        = ⌊(50 : ℚ)⌋ ∧
     (gameOver ⟨true, 50, 30, 0, 0, Player.init, [], []⟩).2
        = some ⌊(50 : ℚ)⌋) ∧
    (¬ ⌊(10 : ℚ)⌋ > (30 : ℤ) ∧
     (gameOver ⟨true, 10, 30, 0, 0, Player.init, [], []⟩).1.highScore = 30 ∧
     (gameOver ⟨true, 10, 30, 0, 0, Player.init, [], []⟩).2 = none) := by
  have h50 := (gameOver_highscore_update ⟨true, 50, 30, 0, 0, Player.init,
    [], []⟩).1 (by norm_num)
  have h10 := (gameOver_highscore_update ⟨true, 10, 30, 0, 0, Player.init,
    [], []⟩).2 (by norm_num)
  exact ⟨⟨by norm_num, h50.1, h50.2⟩, ⟨by norm_num, h10.1, h10.2⟩⟩

/-- C8: each tick the generator draws `gap = gapR * (maxGap - minGap) +
minGap ∈ [200, 350)` afresh, and appends exactly one obstacle at the
right edge `x = canvasWidth` (recording the current frame as the last
spawn frame) precisely when `frame - lastObstacleFrame` strictly exceeds
`gap / obstacleSpeed`; otherwise it changes nothing. -/
theorem generateObstacle_spawn_spec (rnd : Rand) (f l : ℕ) (obs : List Obstacle)
    (h0 : 0 ≤ rnd.gapR) (h1 : rnd.gapR < 1) :
    (minGap ≤ rnd.gapR * (maxGap - minGap) + minGap ∧
     rnd.gapR * (maxGap - minGap) + minGap < maxGap) ∧
    ((f : ℚ) - (l : ℚ) > (rnd.gapR * (maxGap - minGap) + minGap) / obstacleSpeed →
      generateObstacle rnd f l obs =
        (obs ++ [Obstacle.init rnd.heightR canvasWidth (decide (rnd.topR > 1/2))],
         f) ∧
      (Obstacle.init rnd.heightR canvasWidth (decide (rnd.topR > 1/2))).x =
        canvasWidth) ∧
    (¬ ((f : ℚ) - (l : ℚ) >
          (rnd.gapR * (maxGap - minGap) + minGap) / obstacleSpeed) →
      generateObstacle rnd f l obs = (obs, l)) := by
  refine ⟨⟨?_, ?_⟩, ?_, ?_⟩
  · have : 0 ≤ rnd.gapR * (maxGap - minGap) := by
      apply mul_nonneg h0
      norm_num [maxGap, minGap]
    linarith
  · have : rnd.gapR * (maxGap - minGap) < 1 * (maxGap - minGap) := by
      apply mul_lt_mul_of_pos_right h1
      norm_num [maxGap, minGap]
    norm_num [maxGap, minGap] at this ⊢
    linarith
  · intro h
    simp only [generateObstacle]
    rw [if_pos h]
    exact ⟨rfl, rfl⟩
  · intro h
    simp only [generateObstacle]
    rw [if_neg h]

/-- Witness for C8 at a concrete spawning configuration. -/
theorem generateObstacle_spawn_spec_witness :
    (0 ≤ (⟨0, 0, 0⟩ : Rand).gapR ∧ (⟨0, 0, 0⟩ : Rand).gapR < 1) ∧
    ((minGap ≤ (⟨0, 0, 0⟩ : Rand).gapR * (maxGap - minGap) + minGap ∧
      (⟨0, 0, 0⟩ : Rand).gapR * (maxGap - minGap) + minGap < maxGap) ∧
     (((100 : ℕ) : ℚ) - ((0 : ℕ) : ℚ) >
        ((⟨0, 0, 0⟩ : Rand).gapR * (maxGap - minGap) + minGap) / obstacleSpeed →
       generateObstacle ⟨0, 0, 0⟩ 100 0 [] =
         ([Obstacle.init (⟨0, 0, 0⟩ : Rand).heightR canvasWidth
            (decide ((⟨0, 0, 0⟩ : Rand).topR > 1/2))], 100) ∧
       (Obstacle.init (⟨0, 0, 0⟩ : Rand).heightR canvasWidth
          (decide ((⟨0, 0, 0⟩ : Rand).topR > 1/2))).x = canvasWidth) ∧
     (¬ (((100 : ℕ) : ℚ) - ((0 : ℕ) : ℚ) >
          ((⟨0, 0, 0⟩ : Rand).gapR * (maxGap - minGap) + minGap) / obstacleSpeed) →
       generateObstacle ⟨0, 0, 0⟩ 100 0 [] = ([], 0))) :=
  ⟨⟨by norm_num, by norm_num⟩,
   by
     have h := generateObstacle_spawn_spec ⟨0, 0, 0⟩ 100 0 []
       (by norm_num) (by norm_num)
     simpa using h⟩

/-- C10: the generator never spawns more than one obstacle in a tick, and
whenever it does spawn, the current frame is strictly more than
`minGap / initialSpeed = 40` frames after the recorded last spawn frame
(so consecutive spawn frames differ by at least 41), whatever the random
draw was; the spawn frame is then recorded. -/
theorem generateObstacle_spacing (rnd : Rand) (f l : ℕ) (obs : List Obstacle)
    (h0 : 0 ≤ rnd.gapR) :
    (generateObstacle rnd f l obs).1.length ≤ obs.length + 1 ∧
    ((generateObstacle rnd f l obs).1 ≠ obs →
      (l : ℤ) + 41 ≤ (f : ℤ) ∧ (generateObstacle rnd f l obs).2 = f) := by
  simp only [generateObstacle]
  split_ifs with hc
  · constructor
    · simp
    · intro
      refine ⟨?_, rfl⟩
      have hgap : (40 : ℚ) ≤ (rnd.gapR * (maxGap - minGap) + minGap) /
          obstacleSpeed := by
        have : 0 ≤ rnd.gapR * (maxGap - minGap) := by
          apply mul_nonneg h0
          norm_num [maxGap, minGap]
        rw [le_div_iff₀ (by norm_num [obstacleSpeed] : (0:ℚ) < obstacleSpeed)]
        norm_num [maxGap, minGap, obstacleSpeed]
        linarith
      have hq : (l : ℚ) + 40 < (f : ℚ) := by linarith
      have hz : (l : ℤ) + 40 < (f : ℤ) := by exact_mod_cast hq
      omega
  · exact ⟨Nat.le_succ _, fun hne => absurd rfl hne⟩

/-- Witness for C10 at a concrete spawning configuration. -/
theorem generateObstacle_spacing_witness :
    0 ≤ (⟨0, 0, 0⟩ : Rand).gapR ∧
    ((generateObstacle ⟨0, 0, 0⟩ 100 0 []).1.length ≤ 1 ∧
     ((generateObstacle ⟨0, 0, 0⟩ 100 0 []).1 ≠ [] →
       ((0 : ℕ) : ℤ) + 41 ≤ ((100 : ℕ) : ℤ) ∧
       (generateObstacle ⟨0, 0, 0⟩ 100 0 []).2 = 100)) :=
  ⟨by norm_num,
   by
     have h := generateObstacle_spacing ⟨0, 0, 0⟩ 100 0 [] (by norm_num)
     simpa using h⟩

/-- C9 (amended): a tick schedules the next animation frame exactly when
the run was in the running state when the tick began; a tick taken in
the idle/over state changes nothing and schedules nothing.  (The fatal
tick itself therefore still schedules one further tick; that subsequent
tick sees the over state and schedules no more.) -/
theorem tick_schedules_iff_running_at_entry (rnd : Rand) (s : GameState) :
    (tick rnd s).2.1 = s.isRunning ∧
    (s.isRunning = false →
      (tick rnd s).1 = s ∧ (tick rnd s).2.1 = false) := by
  constructor
  · by_cases h : s.isRunning
    · simp [tick, h]
    · simp [tick, h]
  · intro h
    simp [tick, h]

/-- Witness for C9's amended theorem at a concrete over state. -/
theorem tick_schedules_iff_running_at_entry_witness :
    (tick ⟨0, 0, 0⟩
       { isRunning := false, score := 7, highScore := 0, frame := 0,
         lastObstacleFrame := 0, player := Player.init, obstacles := [],
         particles := [] }).2.1 =
      ({ isRunning := false, score := 7, highScore := 0, frame := 0,
         lastObstacleFrame := 0, player := Player.init, obstacles := [],
         particles := [] } : GameState).isRunning ∧
    (tick ⟨0, 0, 0⟩
       { isRunning := false, score := 7, highScore := 0, frame := 0,
         lastObstacleFrame := 0, player := Player.init, obstacles := [],
         particles := [] }).1 =
      { isRunning := false, score := 7, highScore := 0, frame := 0,
        lastObstacleFrame := 0, player := Player.init, obstacles := [],
        particles := [] } ∧
    (tick ⟨0, 0, 0⟩
       { isRunning := false, score := 7, highScore := 0, frame := 0,
         lastObstacleFrame := 0, player := Player.init, obstacles := [],
         particles := [] }).2.1 = false :=
  ⟨(tick_schedules_iff_running_at_entry ⟨0, 0, 0⟩ _).1,
   ((tick_schedules_iff_running_at_entry ⟨0, 0, 0⟩ _).2 rfl).1,
   ((tick_schedules_iff_running_at_entry ⟨0, 0, 0⟩ _).2 rfl).2⟩

/-- Counterexample to C9 as stated: on a concrete running state whose
obstacle overlaps the player, the tick detects the fatal collision and
moves the run to the over state, yet it still calls
`requestAnimationFrame` at the end of `gameLoop`, scheduling one further
tick. -/
theorem fatal_tick_still_schedules_counterexample :
    (tick ⟨0, 0, 0⟩
       { isRunning := true, score := 0, highScore := 0, frame := 0,
         lastObstacleFrame := 0, player := Player.init,
         obstacles := [Obstacle.init (1/2) 140 true],
         particles := [] }).1.isRunning = false ∧
    (tick ⟨0, 0, 0⟩
       { isRunning := true, score := 0, highScore := 0, frame := 0,
         lastObstacleFrame := 0, player := Player.init,
         obstacles := [Obstacle.init (1/2) 140 true],
         particles := [] }).2.1 = true := by
  norm_num [tick, checkCollisions, gameOver, updateScore, updateObstacles,
    updateParticles, generateObstacle, Obstacle.update, Obstacle.isOffScreen,
    Obstacle.collidesWith, Obstacle.init, Player.update, Player.init, jsSign, abs,
    maxSpeed, gravityConst, canvasHeight, canvasWidth, groundHeight, playerSize,
    playerStartX, obstacleWidth, obstacleSpeed, speedIncrease, minGap, maxGap,
    scoreMultiplier]

end GravityRunner
